import Mathlib

/-!
Shallow embedding of `menpofit/aam/base.py`: the `AAM` and `PatchBasedAAM`
classes (instance synthesis from shape and appearance subspace models).

Floating-point values are modelled exactly as rationals; the external
square root (`** 0.5`), the reference-frame builders, `as_unmasked`,
`warp_to_mask` and the PRNG (`np.random.randn`) are external collaborators
and appear as function parameters (the `Env` record and `rng` argument).
NumPy's broadcast rules for the element-wise products in the source are
modelled explicitly, as is the difference between an in-place `*=` on a
caller-supplied ndarray and the fresh array produced when the left operand
is a Python list.
-/

namespace Menpofit

/-- Triangle list of a mesh: triples of point indices. -/
abbrev Trilist := List (Nat × Nat × Nat)

/-- The runtime class of a landmark/point-set object, as far as the source
inspects it: `type(x) == TriMesh` distinguishes exactly `triMesh`;
`triMeshSub` stands for a proper subclass of `TriMesh`, `pointCloud` for
any non-`TriMesh` point set. -/
inductive LmKind where
  | pointCloud
  | triMesh
  | triMeshSub
deriving DecidableEq

/-- A landmark / point-set object (`PointCloud`, `TriMesh`, ...): its class,
its points and (when it is a mesh) its triangle list. -/
structure Landmarks where
  kind : LmKind
  points : List (ℚ × ℚ)
  trilist : Trilist
deriving DecidableEq

/-- An image as the source uses it: some pixel content plus the embedded
landmark group named "source" (`img.landmarks['source'].lms`). -/
structure Image where
  content : List ℚ
  source_lms : Landmarks
deriving DecidableEq

/-- A boolean support mask. -/
abbrev Mask := List (List Bool)

/-- A reference frame as consumed by the source: exposes a `mask` and the
landmark group "source". -/
structure RefFrame where
  mask : Mask
  source_lms : Landmarks
deriving DecidableEq

/-- The value returned by the model's transform constructor (an alignment
transform); an abstract carrier with room to record its two landmark sets. -/
abbrev TransformData := Landmarks × Landmarks

/-- The external-collaborator interface consumed by the source file:
square root (numpy `** 0.5`), the two reference-frame builders from
`.builder`, and the image operations `as_unmasked` / `warp_to_mask`. -/
structure Env where
  sqrt : ℚ → ℚ
  build_reference_frame : Landmarks → Option Trilist → RefFrame
  build_patch_reference_frame : Landmarks → Nat × Nat → RefFrame
  as_unmasked : Image → Bool → Image
  warp_to_mask : Image → Mask → TransformData → Bool → Image

/-- A PCA subspace model (external collaborator): eigenvalues (descending),
active component count, mean instance, and `instance(weights)` (named
`inst` here since `instance` is a Lean keyword). -/
structure PCAModel (Inst : Type) where
  eigenvalues : List ℚ
  n_active_components : Nat
  mean : Inst
  inst : List ℚ → Inst

/-- Which concrete class the model object has: plain `AAM` (dense) or
`PatchBasedAAM` with its stored `patch_shape`. -/
inductive AAMKind where
  | dense
  | patchBased (patch_shape : Nat × Nat)
deriving DecidableEq

/-- The `AAM` container (fields of `AAM.__init__`; `PatchBasedAAM` is the
same container with `kind = patchBased patch_shape`). -/
structure AAM where
  shape_models : List (PCAModel Landmarks)
  appearance_models : List (PCAModel Image)
  n_training_images : Nat
  transform : Landmarks → Landmarks → TransformData
  reference_shape : Landmarks
  downscale : ℚ
  scaled_shape_models : Bool
  kind : AAMKind

/-- `n_levels`: the number of appearance models. -/
def AAM.n_levels (m : AAM) : Nat := m.appearance_models.length

/-- Python list indexing `xs[i]` with negative indices counting from the
end; `none` models an `IndexError`. -/
def pyIndex {α : Type} (xs : List α) (i : Int) : Option α :=
  let j : Int := if i < 0 then (xs.length : Int) + i else i
  if 0 ≤ j then xs.get? j.toNat else none

/-- NumPy element-wise product `a * b` of two 1-d float arrays, producing a
fresh array; `none` models the broadcast `ValueError` raised on
incompatible shapes `(n,)` and `(m,)` with `n ≠ m`, `n ≠ 1`, `m ≠ 1`. -/
def npMulNew (a b : List ℚ) : Option (List ℚ) :=
  if a.length = b.length then some (List.zipWith (· * ·) a b)
  else if b.length = 1 then some (a.map (· * b.headI))
  else if a.length = 1 then some (b.map (a.headI * ·))
  else none

/-- NumPy in-place product `a *= b` on a 1-d float array `a`: the result
must have `a`'s shape, so it is accepted only when `b` has `a`'s length or
length 1; `none` models the raised `ValueError`. -/
def npMulInPlace (a b : List ℚ) : Option (List ℚ) :=
  if a.length = b.length then some (List.zipWith (· * ·) a b)
  else if b.length = 1 then some (a.map (· * b.headI))
  else none

/-- A caller-supplied weight vector: either a Python list of floats or a
numpy ndarray (the two behave differently under the source's `*=`). -/
inductive Weights where
  | pylist (xs : List ℚ)
  | ndarray (xs : List ℚ)
deriving DecidableEq

/-- The float contents of a weight vector. -/
def Weights.toList : Weights → List ℚ
  | .pylist xs => xs
  | .ndarray xs => xs

/-- One `w *= model.eigenvalues[:len(w)] ** 0.5` step from
`AAM.instance`. Returns the scaled vector handed to the subspace model
together with the final state of the caller-visible object: a Python list
is left unchanged (the `*=` falls back to numpy's binary multiply, which
allocates a fresh array), while an ndarray is mutated in place. -/
def scaleStep (env : Env) (evs : List ℚ) : Weights → Option (List ℚ × Weights)
  | .pylist xs =>
      (npMulNew xs ((evs.take xs.length).map env.sqrt)).map
        (fun v => (v, Weights.pylist xs))
  | .ndarray xs =>
      (npMulInPlace xs ((evs.take xs.length).map env.sqrt)).map
        (fun v => (v, Weights.ndarray v))

/-- `AAM._build_reference_frame` (and the `PatchBasedAAM` override): the
dense variant passes `landmarks.trilist` exactly when
`type(landmarks) == TriMesh`, else `trilist=None`; the patch variant calls
`build_patch_reference_frame` with the stored `patch_shape`, ignoring
`landmarks`. -/
def AAM.buildReferenceFrame (m : AAM) (env : Env)
    (reference_shape landmarks : Landmarks) : RefFrame :=
  match m.kind with
  | AAMKind.dense =>
      env.build_reference_frame reference_shape
        (if landmarks.kind = LmKind.triMesh then some landmarks.trilist else none)
  | AAMKind.patchBased patch_shape =>
      env.build_patch_reference_frame reference_shape patch_shape

/-- The trilist the dense `_build_reference_frame` selects from the
landmark object it is given. -/
def denseTrilist (landmarks : Landmarks) : Option Trilist :=
  if landmarks.kind = LmKind.triMesh then some landmarks.trilist else none

/-- `AAM._instance(level, shape_instance, appearance_instance)`: template =
mean of the level's appearance model; reference frame from the shape
instance and the template's "source" landmarks; transform from the frame's
"source" landmarks to the template landmarks; warp the unmasked
appearance into the frame's mask with `warp_landmarks=True`. -/
def AAM.instanceAux (m : AAM) (env : Env) (level : Int)
    (shape_instance : Landmarks) (appearance_instance : Image) :
    Option Image := do
  let am ← pyIndex m.appearance_models level
  let template := am.mean
  let landmarks := template.source_lms
  let reference_frame := m.buildReferenceFrame env shape_instance landmarks
  let t := m.transform reference_frame.source_lms landmarks
  pure (env.warp_to_mask (env.as_unmasked appearance_instance false)
    reference_frame.mask t true)

/-- The observable outcome of one `AAM.instance` call: the returned image
together with the final state of the caller-supplied weight buffers
(`none` when the corresponding argument was omitted). -/
structure InstanceResult where
  image : Image
  shapeBufAfter : Option Weights
  appBufAfter : Option Weights
deriving DecidableEq

/-- `AAM.instance(shape_weights, appearance_weights, level)`: index both
per-level model lists, default omitted weights to the Python list `[0]`,
scale each weight vector by the square roots of the sliced eigenvalues,
sample both subspace models and synthesize via `_instance`. `none` models
a raised exception (IndexError or broadcast ValueError). -/
def AAM.instanceCall (m : AAM) (env : Env)
    (shape_weights appearance_weights : Option Weights) (level : Int) :
    Option InstanceResult := do
  let sm ← pyIndex m.shape_models level
  let am ← pyIndex m.appearance_models level
  let sw := shape_weights.getD (Weights.pylist [0])
  let aw := appearance_weights.getD (Weights.pylist [0])
  let s ← scaleStep env sm.eigenvalues sw
  let shape_instance := sm.inst s.1
  let a ← scaleStep env am.eigenvalues aw
  let appearance_instance := am.inst a.1
  let img ← AAM.instanceAux m env level shape_instance appearance_instance
  pure ⟨img, shape_weights.map (fun _ => s.2),
        appearance_weights.map (fun _ => a.2)⟩

/-- The image returned by `AAM.instance`. -/
def AAM.mkInstance (m : AAM) (env : Env)
    (shape_weights appearance_weights : Option Weights) (level : Int) :
    Option Image :=
  (AAM.instanceCall m env shape_weights appearance_weights level).map
    (fun r => r.image)

/-- `AAM.instance` with its Python default argument `level=-1`. -/
def AAM.instanceDefault (m : AAM) (env : Env)
    (shape_weights appearance_weights : Option Weights) :
    Option InstanceResult :=
  AAM.instanceCall m env shape_weights appearance_weights (-1)

/-- `AAM.random_instance(level)`: `rng` stands for `np.random.randn`;
each model's draw (of its active-component count) is scaled element-wise
by the square roots of its sliced eigenvalues and fed to the model, then
both instances are synthesized exactly as in `instance`. -/
def AAM.randomInstance (m : AAM) (env : Env) (rng : Nat → List ℚ)
    (level : Int) : Option Image := do
  let sm ← pyIndex m.shape_models level
  let am ← pyIndex m.appearance_models level
  let sw ← npMulNew (rng sm.n_active_components)
    ((sm.eigenvalues.take sm.n_active_components).map env.sqrt)
  let shape_instance := sm.inst sw
  let aw ← npMulNew (rng am.n_active_components)
    ((am.eigenvalues.take am.n_active_components).map env.sqrt)
  let appearance_instance := am.inst aw
  AAM.instanceAux m env level shape_instance appearance_instance

/-- `AAM.random_instance` with its Python default argument `level=-1`. -/
def AAM.randomInstanceDefault (m : AAM) (env : Env) (rng : Nat → List ℚ) :
    Option Image :=
  AAM.randomInstance m env rng (-1)

/-- Replace the class marker (dense vs patch-based) of a model, keeping
every other field. -/
def AAM.setKind (m : AAM) (k : AAMKind) : AAM :=
  { m with kind := k }

/-- `_instance` with the reference-frame builder abstracted; used to state
that the patch-based variant changes only the frame-construction step. -/
def AAM.instanceAuxFB (m : AAM) (env : Env)
    (fb : Landmarks → Landmarks → RefFrame) (level : Int)
    (shape_instance : Landmarks) (appearance_instance : Image) :
    Option Image := do
  let am ← pyIndex m.appearance_models level
  let template := am.mean
  let landmarks := template.source_lms
  let reference_frame := fb shape_instance landmarks
  let t := m.transform reference_frame.source_lms landmarks
  pure (env.warp_to_mask (env.as_unmasked appearance_instance false)
    reference_frame.mask t true)

/-- The same pipeline as `AAM.instanceCall`, with the reference-frame
builder abstracted out; it never consults `m.kind`. -/
def AAM.instanceCoreFB (m : AAM) (env : Env)
    (fb : Landmarks → Landmarks → RefFrame)
    (shape_weights appearance_weights : Option Weights) (level : Int) :
    Option InstanceResult := do
  let sm ← pyIndex m.shape_models level
  let am ← pyIndex m.appearance_models level
  let sw := shape_weights.getD (Weights.pylist [0])
  let aw := appearance_weights.getD (Weights.pylist [0])
  let s ← scaleStep env sm.eigenvalues sw
  let shape_instance := sm.inst s.1
  let a ← scaleStep env am.eigenvalues aw
  let appearance_instance := am.inst a.1
  let img ← AAM.instanceAuxFB m env fb level shape_instance
    appearance_instance
  pure ⟨img, shape_weights.map (fun _ => s.2),
        appearance_weights.map (fun _ => a.2)⟩

/-- The state of a weight buffer after the scaling step, as a function of
the scaled value: a Python list keeps its contents, an ndarray holds the
scaled vector. -/
def Weights.afterScale (w : Weights) (v : List ℚ) : Weights :=
  match w with
  | .pylist xs => .pylist xs
  | .ndarray _ => .ndarray v

/-! Concrete instantiations of the collaborator interfaces, used to
evaluate the theorems on closed inputs. -/

/-- A concrete triangulated mesh landmark object. -/
def cLmsMesh : Landmarks :=
  ⟨LmKind.triMesh, [(0, 0), (0, 1), (1, 0)], [(0, 1, 2)]⟩

/-- A concrete landmark object of a proper `TriMesh` subclass. -/
def cLmsSub : Landmarks :=
  ⟨LmKind.triMeshSub, [(0, 0), (0, 1), (1, 0)], [(0, 1, 2)]⟩

/-- A concrete plain point cloud. -/
def cLmsPC : Landmarks :=
  ⟨LmKind.pointCloud, [(0, 0), (0, 1), (1, 0)], []⟩

/-- A concrete two-component shape subspace model; its `instance` of the
zero vector equals its mean. -/
def cShapeModel : PCAModel Landmarks :=
  ⟨[4, 1], 2, ⟨LmKind.pointCloud, [(0, 0)], []⟩,
    fun ws => ⟨LmKind.pointCloud, ws.map (fun w => (w, w)), []⟩⟩

/-- A concrete two-component appearance subspace model; its `instance` of
the zero vector equals its mean. -/
def cAppModel : PCAModel Image :=
  ⟨[9, 4], 2, ⟨[0], cLmsMesh⟩, fun ws => ⟨ws, cLmsMesh⟩⟩

/-- A concrete square root, exact on the eigenvalues used here. -/
def cSqrt : ℚ → ℚ :=
  fun q => if q = 4 then 2 else if q = 9 then 3 else if q = 1 then 1 else 0

/-- A concrete collaborator environment; the frame builder records whether
a trilist was supplied, and the warp records the transform's first
landmark set. -/
def cEnv : Env :=
  ⟨cSqrt,
   fun sh tri => ⟨[[tri.isSome]], sh⟩,
   fun sh ps => ⟨[List.replicate ps.1 true, List.replicate ps.2 false], sh⟩,
   fun img _ => img,
   fun img mask t _ => ⟨img.content ++ [(mask.length : ℚ)], t.1⟩⟩

/-- A concrete single-level dense model. -/
def cAAM : AAM :=
  ⟨[cShapeModel], [cAppModel], 5, fun a b => (a, b), cLmsPC, 2, false,
    AAMKind.dense⟩

/-- A concrete two-level dense model (both levels share the same
per-level models). -/
def cAAM2 : AAM :=
  ⟨[cShapeModel, cShapeModel], [cAppModel, cAppModel], 5, fun a b => (a, b),
    cLmsPC, 2, false, AAMKind.dense⟩

/-- A deterministic stand-in for `np.random.randn`. -/
def cRng : Nat → List ℚ := fun n => List.replicate n 1

/-- The outcome of calling `instance` on `cAAM` in `cEnv` with shape
weights `ndarray [1]` and appearance weights `pylist [1]` at level 0. -/
def cResult5 : InstanceResult :=
  ⟨⟨[3, 1], ⟨LmKind.pointCloud, [(2, 2)], []⟩⟩,
    some (Weights.ndarray [2]), some (Weights.pylist [1])⟩

section Lemmas

/-- Python `xs[-1]` is the last element. -/
theorem pyIndex_neg_one {α : Type} (xs : List α) :
    pyIndex xs (-1) = xs.getLast? := by
  cases xs with
  | nil => rfl
  | cons a t =>
    rw [List.getLast?_eq_get?]
    simp only [pyIndex, List.length_cons]
    have hlt : (-1 : Int) < 0 := by omega
    have h1 : (0 : Int) ≤ ((t.length + 1 : Nat) : Int) + (-1) := by omega
    have h2 : (((t.length + 1 : Nat) : Int) + (-1)).toNat = t.length + 1 - 1 := by
      omega
    rw [if_pos hlt, if_pos h1, h2]

/-- Python `xs[len(xs) - 1]` is the last element. -/
theorem pyIndex_length_sub_one {α : Type} (xs : List α) :
    pyIndex xs ((xs.length : Int) - 1) = xs.getLast? := by
  cases xs with
  | nil => rfl
  | cons a t =>
    rw [List.getLast?_eq_get?]
    simp only [pyIndex, List.length_cons]
    have hnlt : ¬ ((t.length + 1 : Nat) : Int) - 1 < 0 := by omega
    have h1 : (0 : Int) ≤ ((t.length + 1 : Nat) : Int) - 1 := by omega
    have h2 : (((t.length + 1 : Nat) : Int) - 1).toNat = t.length + 1 - 1 := by
      omega
    rw [if_neg hnlt, if_pos h1, h2]

/-- Indexing at `-1` and at `length - 1` agree. -/
theorem pyIndex_neg_one_eq {α : Type} (xs : List α) :
    pyIndex xs (-1) = pyIndex xs ((xs.length : Int) - 1) := by
  rw [pyIndex_neg_one, pyIndex_length_sub_one]

/-- When the weight vector is no longer than the eigenvalue list, the
scaling step on a Python list succeeds, hands on the element-wise product
with the square-rooted eigenvalue slice, and leaves the list unchanged. -/
theorem scaleStep_pylist_of_le (env : Env) (evs xs : List ℚ)
    (h : xs.length ≤ evs.length) :
    scaleStep env evs (Weights.pylist xs) =
      some (List.zipWith (· * ·) xs ((evs.take xs.length).map env.sqrt),
        Weights.pylist xs) := by
  have hlen : xs.length = ((evs.take xs.length).map env.sqrt).length := by
    rw [List.length_map, List.length_take_of_le h]
  simp only [scaleStep, npMulNew, if_pos hlen, Option.map_some']

/-- Same as `scaleStep_pylist_of_le` for an ndarray, whose buffer is
mutated in place to the scaled vector. -/
theorem scaleStep_ndarray_of_le (env : Env) (evs xs : List ℚ)
    (h : xs.length ≤ evs.length) :
    scaleStep env evs (Weights.ndarray xs) =
      some (List.zipWith (· * ·) xs ((evs.take xs.length).map env.sqrt),
        Weights.ndarray
          (List.zipWith (· * ·) xs ((evs.take xs.length).map env.sqrt))) := by
  have hlen : xs.length = ((evs.take xs.length).map env.sqrt).length := by
    rw [List.length_map, List.length_take_of_le h]
  simp only [scaleStep, npMulInPlace, if_pos hlen, Option.map_some']

/-- An ndarray weight vector strictly longer than the eigenvalue list (of
length other than one) fails the in-place broadcast. -/
theorem scaleStep_ndarray_of_long (env : Env) (evs xs : List ℚ)
    (h1 : evs.length < xs.length) (h2 : evs.length ≠ 1) :
    scaleStep env evs (Weights.ndarray xs) = none := by
  have ht : evs.take xs.length = evs := List.take_all_of_le (le_of_lt h1)
  have hlen : ((evs.take xs.length).map env.sqrt).length = evs.length := by
    rw [List.length_map, ht]
  simp only [scaleStep, npMulInPlace, if_neg (show ¬xs.length = ((evs.take xs.length).map env.sqrt).length by omega),
    if_neg (show ¬((evs.take xs.length).map env.sqrt).length = 1 by omega), Option.map_none']

/-- Whatever the scaling step does, a Python-list buffer comes out
unchanged. -/
theorem scaleStep_pylist_state (env : Env) (evs xs : List ℚ)
    (p : List ℚ × Weights)
    (h : scaleStep env evs (Weights.pylist xs) = some p) :
    p.2 = Weights.pylist xs := by
  simp only [scaleStep] at h
  cases hnp : npMulNew xs ((evs.take xs.length).map env.sqrt) with
  | none => rw [hnp] at h; exact absurd h (by simp)
  | some v =>
    rw [hnp, Option.map_some'] at h
    injection h with h
    rw [← h]

/-- Projecting the image out of a completed `instance` call recovers the
underlying `_instance` result. -/
theorem map_image_bind (o : Option Image) (b1 b2 : Option Weights) :
    Option.map (fun r => r.image)
      (o >>= fun img => pure (InstanceResult.mk img b1 b2)) = o := by
  cases o <;> rfl

/-- `scaleStep_pylist_of_le` and `scaleStep_ndarray_of_le` in one form. -/
theorem scaleStep_of_le (env : Env) (evs : List ℚ) (w : Weights)
    (h : w.toList.length ≤ evs.length) :
    scaleStep env evs w =
      some (List.zipWith (· * ·) w.toList
          ((evs.take w.toList.length).map env.sqrt),
        w.afterScale (List.zipWith (· * ·) w.toList
          ((evs.take w.toList.length).map env.sqrt))) := by
  cases w with
  | pylist xs => exact scaleStep_pylist_of_le env evs xs h
  | ndarray xs => exact scaleStep_ndarray_of_le env evs xs h

/-- The patch-based `_build_reference_frame` override. -/
theorem buildReferenceFrame_patch (m : AAM) (env : Env) (p : Nat × Nat)
    (hk : m.kind = AAMKind.patchBased p) (rs lms : Landmarks) :
    m.buildReferenceFrame env rs lms = env.build_patch_reference_frame rs p := by
  unfold AAM.buildReferenceFrame
  rw [hk]

/-- The dense `_build_reference_frame`. -/
theorem buildReferenceFrame_dense (m : AAM) (env : Env)
    (hk : m.kind = AAMKind.dense) (rs lms : Landmarks) :
    m.buildReferenceFrame env rs lms
      = env.build_reference_frame rs (denseTrilist lms) := by
  unfold AAM.buildReferenceFrame denseTrilist
  rw [hk]

/-- A model whose frame construction agrees with `fb` runs `instance` as
the `fb`-parameterized core pipeline. -/
theorem instanceCall_eq_coreFB (m : AAM) (env : Env)
    (fb : Landmarks → Landmarks → RefFrame) (sw aw : Option Weights)
    (L : Int)
    (hfb : ∀ rs lms, m.buildReferenceFrame env rs lms = fb rs lms) :
    AAM.instanceCall m env sw aw L = AAM.instanceCoreFB m env fb sw aw L := by
  unfold AAM.instanceCall AAM.instanceCoreFB AAM.instanceAux AAM.instanceAuxFB
  simp only [hfb]

end Lemmas

section Claims

/-- C1: for every level and every supplied shape (resp. appearance)
coefficient vector of length `k` (within the available components),
`AAM.instance` multiplies the vector element-wise by the square roots of
the first `k` eigenvalues of the level's shape (resp. appearance) model
before passing the scaled vector to that model's `instance` operation, and
builds the output from the two resulting instances via `_instance`. -/
theorem instance_scales_by_sqrt_eigenvalues (m : AAM) (env : Env) (L : Int)
    (sm : PCAModel Landmarks) (am : PCAModel Image) (w1 w2 : Weights)
    (hsm : pyIndex m.shape_models L = some sm)
    (ham : pyIndex m.appearance_models L = some am)
    (h1 : w1.toList.length ≤ sm.eigenvalues.length)
    (h2 : w2.toList.length ≤ am.eigenvalues.length) :
    AAM.mkInstance m env (some w1) (some w2) L =
      AAM.instanceAux m env L
        (sm.inst (List.zipWith (· * ·) w1.toList
          ((sm.eigenvalues.take w1.toList.length).map env.sqrt)))
        (am.inst (List.zipWith (· * ·) w2.toList
          ((am.eigenvalues.take w2.toList.length).map env.sqrt))) := by
  unfold AAM.mkInstance AAM.instanceCall
  rw [hsm, ham]
  simp only [Option.bind_eq_bind', Option.some_bind', Option.getD_some]
  rw [scaleStep_of_le env sm.eigenvalues w1 h1,
    scaleStep_of_le env am.eigenvalues w2 h2]
  simp only [Option.bind_eq_bind', Option.some_bind', Option.map_some']
  exact map_image_bind _ _ _

/-- C2: omitting both weight vectors makes `AAM.instance` use the single
zero coefficient `[0]` for each model, so (under the subspace-model
contract that a zero coefficient vector yields the mean) the result is
the rendering synthesized from the level's mean shape and mean
appearance. -/
theorem instance_none_gives_mean_rendering (m : AAM) (env : Env) (L : Int)
    (sm : PCAModel Landmarks) (am : PCAModel Image)
    (hsm : pyIndex m.shape_models L = some sm)
    (ham : pyIndex m.appearance_models L = some am)
    (hse : sm.eigenvalues ≠ []) (hae : am.eigenvalues ≠ [])
    (hzs : sm.inst [0] = sm.mean) (hza : am.inst [0] = am.mean) :
    AAM.mkInstance m env none none L =
      AAM.instanceAux m env L sm.mean am.mean := by
  obtain ⟨e, es, hes⟩ := List.exists_cons_of_ne_nil hse
  obtain ⟨f, fs, hfs⟩ := List.exists_cons_of_ne_nil hae
  have h1 : (Weights.pylist [0]).toList.length ≤ sm.eigenvalues.length := by
    rw [hes]; simp [Weights.toList]
  have h2 : (Weights.pylist [0]).toList.length ≤ am.eigenvalues.length := by
    rw [hfs]; simp [Weights.toList]
  have hz1 : List.zipWith (· * ·) (Weights.pylist [0]).toList
      ((sm.eigenvalues.take (Weights.pylist [0]).toList.length).map env.sqrt)
      = [0] := by
    rw [hes]; simp [Weights.toList]
  have hz2 : List.zipWith (· * ·) (Weights.pylist [0]).toList
      ((am.eigenvalues.take (Weights.pylist [0]).toList.length).map env.sqrt)
      = [0] := by
    rw [hfs]; simp [Weights.toList]
  unfold AAM.mkInstance AAM.instanceCall
  rw [hsm, ham]
  simp only [Option.bind_eq_bind', Option.some_bind', Option.getD_none]
  rw [scaleStep_of_le env sm.eigenvalues (Weights.pylist [0]) h1,
    scaleStep_of_le env am.eigenvalues (Weights.pylist [0]) h2]
  simp only [Option.bind_eq_bind', Option.some_bind', Option.map_none']
  rw [hz1, hz2, hzs, hza]
  exact map_image_bind _ _ _

/-- C6: the synthesis step `_instance` takes the template to be the
level's appearance-model mean with its embedded "source" landmarks,
builds the model's transform from the reference frame's "source"
landmarks to the template landmarks, and warps the appearance instance,
unmasked without copying, into the reference frame's mask with landmark
propagation enabled. -/
theorem instanceAux_warps_mean_template (m : AAM) (env : Env) (L : Int)
    (si : Landmarks) (ai : Image) (am : PCAModel Image)
    (ham : pyIndex m.appearance_models L = some am) :
    AAM.instanceAux m env L si ai =
      some (env.warp_to_mask (env.as_unmasked ai false)
        (m.buildReferenceFrame env si am.mean.source_lms).mask
        (m.transform
          (m.buildReferenceFrame env si am.mean.source_lms).source_lms
          am.mean.source_lms)
        true) := by
  unfold AAM.instanceAux
  rw [ham]
  rfl

/-- C3 (counterexample): in a dense-model synthesis the claim "the
reference frame is built with the shape instance's own triangulation when
the shape instance is a triangulated mesh" is false: with a `TriMesh`
shape instance but a plain point-cloud template landmark set, the frame
is built with no triangulation, not with the shape's trilist. -/
theorem dense_frame_ignores_shape_mesh_cex :
    cLmsMesh.kind = LmKind.triMesh
    ∧ AAM.buildReferenceFrame cAAM cEnv cLmsMesh cLmsPC
        = cEnv.build_reference_frame cLmsMesh none
    ∧ AAM.buildReferenceFrame cAAM cEnv cLmsMesh cLmsPC
        ≠ cEnv.build_reference_frame cLmsMesh (some cLmsMesh.trilist) := by
  refine ⟨rfl, rfl, ?_⟩
  decide

/-- C3 (amended): in a dense-model synthesis the reference frame is built
from the shape instance with the triangulation selected from the
appearance template's "source" landmark object (its trilist when that
object is exactly a `TriMesh`, none otherwise); the no-triangulation path
returns a frame rather than failing. -/
theorem dense_frame_trilist_from_template (m : AAM) (env : Env) (L : Int)
    (si : Landmarks) (ai : Image) (am : PCAModel Image)
    (hk : m.kind = AAMKind.dense)
    (ham : pyIndex m.appearance_models L = some am) :
    AAM.instanceAux m env L si ai =
      some (env.warp_to_mask (env.as_unmasked ai false)
        (env.build_reference_frame si
          (denseTrilist am.mean.source_lms)).mask
        (m.transform
          (env.build_reference_frame si
            (denseTrilist am.mean.source_lms)).source_lms
          am.mean.source_lms)
        true) := by
  unfold AAM.instanceAux
  rw [ham]
  simp only [Option.bind_eq_bind', Option.some_bind']
  rw [buildReferenceFrame_dense m env hk]
  rfl

/-- C4 (counterexample): with a valid level and a two-eigenvalue shape
model, a weight vector of length three is not silently truncated: the
call raises (returns no result). -/
theorem oversized_weights_raise_cex :
    pyIndex cAAM.shape_models 0 = some cShapeModel
    ∧ pyIndex cAAM.appearance_models 0 = some cAppModel
    ∧ AAM.mkInstance cAAM cEnv (some (Weights.ndarray [1, 1, 1])) none 0
        = none := by
  exact ⟨rfl, rfl, rfl⟩

/-- C4 (amended): an ndarray weight vector longer than the model's
eigenvalue list is never truncated; unless exactly one eigenvalue is
sliced, the element-wise product fails to broadcast and the call raises
(the eigenvalue list, not the weight vector, is what `[:n]` slices). -/
theorem oversized_ndarray_weights_raise (m : AAM) (env : Env) (L : Int)
    (sm : PCAModel Landmarks) (xs : List ℚ) (aw : Option Weights)
    (hsm : pyIndex m.shape_models L = some sm)
    (hlong : sm.eigenvalues.length < xs.length)
    (hne : sm.eigenvalues.length ≠ 1) :
    AAM.instanceCall m env (some (Weights.ndarray xs)) aw L = none := by
  unfold AAM.instanceCall
  rw [hsm]
  simp only [Option.bind_eq_bind', Option.some_bind']
  cases ham : pyIndex m.appearance_models L with
  | none => rfl
  | some am =>
    simp only [Option.bind_eq_bind', Option.some_bind', Option.getD_some]
    rw [scaleStep_ndarray_of_long env sm.eigenvalues xs hlong hne]
    rfl

/-- C5 (counterexample): an `instance` call is not free of side effects on
caller-supplied inputs: a caller ndarray weight vector `[1]` is scaled in
place and holds `[2]` after the call. -/
theorem instance_mutates_ndarray_cex :
    (AAM.instanceCall cAAM cEnv (some (Weights.ndarray [1])) none 0).map
        (fun r => r.shapeBufAfter)
      = some (some (Weights.ndarray [2]))
    ∧ Weights.ndarray [2] ≠ Weights.ndarray [1] := by
  constructor
  · norm_num [AAM.instanceCall, AAM.instanceAux, AAM.buildReferenceFrame,
      scaleStep, npMulInPlace, npMulNew, pyIndex, cAAM, cEnv, cSqrt,
      cShapeModel, cAppModel, cLmsMesh, cLmsPC, Option.bind_eq_bind',
      Option.some_bind', Option.getD_some, Option.getD_none]
  · decide

/-- C5 (amended): the model container is never written and Python-list
weight vectors come out of a call unchanged, but a caller-supplied
ndarray weight vector is mutated in place into the eigenvalue-scaled
vector. -/
theorem instance_weight_buffer_effects (m : AAM) (env : Env) (L : Int)
    (sm : PCAModel Landmarks) (xs ys : List ℚ) (r : InstanceResult)
    (hsm : pyIndex m.shape_models L = some sm)
    (hx : xs.length ≤ sm.eigenvalues.length)
    (hcall : AAM.instanceCall m env (some (Weights.ndarray xs))
      (some (Weights.pylist ys)) L = some r) :
    r.shapeBufAfter = some (Weights.ndarray (List.zipWith (· * ·) xs
        ((sm.eigenvalues.take xs.length).map env.sqrt)))
    ∧ r.appBufAfter = some (Weights.pylist ys) := by
  unfold AAM.instanceCall at hcall
  rw [hsm] at hcall
  simp only [Option.bind_eq_bind', Option.some_bind'] at hcall
  cases ham : pyIndex m.appearance_models L with
  | none => rw [ham] at hcall; exact absurd hcall (by simp)
  | some am =>
    rw [ham] at hcall
    simp only [Option.bind_eq_bind', Option.some_bind', Option.getD_some]
      at hcall
    rw [scaleStep_ndarray_of_le env sm.eigenvalues xs hx] at hcall
    simp only [Option.bind_eq_bind', Option.some_bind'] at hcall
    cases hsc : scaleStep env am.eigenvalues (Weights.pylist ys) with
    | none => rw [hsc] at hcall; exact absurd hcall (by simp)
    | some p =>
      rw [hsc] at hcall
      simp only [Option.bind_eq_bind', Option.some_bind'] at hcall
      cases haux : AAM.instanceAux m env L
          (sm.inst (List.zipWith (· * ·) xs
            ((sm.eigenvalues.take xs.length).map env.sqrt)))
          (am.inst p.1) with
      | none => rw [haux] at hcall; exact absurd hcall (by simp)
      | some img =>
        rw [haux] at hcall
        simp only [Option.bind_eq_bind', Option.some_bind',
          Option.map_some'] at hcall
        injection hcall with hcall
        rw [← hcall]
        exact ⟨rfl, by rw [scaleStep_pylist_state env am.eigenvalues ys p hsc]⟩

/-- C7: `random_instance` feeds each model a PRNG draw of length equal to
its active component count, scaled element-wise by the square roots of its
eigenvalues, and synthesizes the result through the same `_instance` step
as `instance`. -/
theorem random_instance_scaling (m : AAM) (env : Env) (rng : Nat → List ℚ)
    (L : Int) (sm : PCAModel Landmarks) (am : PCAModel Image)
    (hsm : pyIndex m.shape_models L = some sm)
    (ham : pyIndex m.appearance_models L = some am)
    (hrs : (rng sm.n_active_components).length = sm.n_active_components)
    (hra : (rng am.n_active_components).length = am.n_active_components)
    (hs : sm.n_active_components ≤ sm.eigenvalues.length)
    (ha : am.n_active_components ≤ am.eigenvalues.length) :
    AAM.randomInstance m env rng L =
      AAM.instanceAux m env L
        (sm.inst (List.zipWith (· * ·) (rng sm.n_active_components)
          ((sm.eigenvalues.take sm.n_active_components).map env.sqrt)))
        (am.inst (List.zipWith (· * ·) (rng am.n_active_components)
          ((am.eigenvalues.take am.n_active_components).map env.sqrt))) := by
  have h1 : (rng sm.n_active_components).length =
      ((sm.eigenvalues.take sm.n_active_components).map env.sqrt).length := by
    rw [List.length_map, List.length_take_of_le hs, hrs]
  have h2 : (rng am.n_active_components).length =
      ((am.eigenvalues.take am.n_active_components).map env.sqrt).length := by
    rw [List.length_map, List.length_take_of_le ha, hra]
  unfold AAM.randomInstance npMulNew
  rw [hsm, ham]
  simp only [Option.bind_eq_bind', Option.some_bind']
  rw [if_pos h1, if_pos h2]
  simp only [Option.bind_eq_bind', Option.some_bind']

/-- C8: `level = -1` is the Python default of both `instance` and
`random_instance`; it selects the last element of both per-level model
lists, and (when the two lists have equal length) the call at `-1` equals
the call at `n_levels - 1`. -/
theorem level_neg_one_default_and_last (m : AAM) (env : Env)
    (sw aw : Option Weights) (rng : Nat → List ℚ)
    (hlen : m.shape_models.length = m.appearance_models.length) :
    AAM.instanceDefault m env sw aw = AAM.instanceCall m env sw aw (-1)
    ∧ AAM.randomInstanceDefault m env rng = AAM.randomInstance m env rng (-1)
    ∧ pyIndex m.shape_models (-1) = m.shape_models.getLast?
    ∧ pyIndex m.appearance_models (-1) = m.appearance_models.getLast?
    ∧ AAM.instanceCall m env sw aw (-1)
        = AAM.instanceCall m env sw aw ((m.n_levels : Int) - 1) := by
  refine ⟨rfl, rfl, pyIndex_neg_one _, pyIndex_neg_one _, ?_⟩
  have h1 : pyIndex m.shape_models (-1) =
      pyIndex m.shape_models ((m.n_levels : Int) - 1) := by
    rw [pyIndex_neg_one_eq]
    unfold AAM.n_levels
    rw [hlen]
  have h2 : pyIndex m.appearance_models (-1) =
      pyIndex m.appearance_models ((m.n_levels : Int) - 1) := by
    rw [pyIndex_neg_one_eq]
    rfl
  unfold AAM.instanceCall AAM.instanceAux
  rw [h1, h2]

/-- C9: the patch-based variant runs the very same core pipeline
(eigenvalue scaling, subspace sampling, warp construction, resampling) as
the dense variant, differing only in the reference-frame builder handed to
that pipeline — a fixed-size patch frame from the stored `patch_shape`
instead of the dense (template-trilist) frame — and the core pipeline
itself is independent of the variant marker. -/
theorem patch_variant_changes_only_frame_builder (m : AAM)
    (p : Nat × Nat) (env : Env) (sw aw : Option Weights) (L : Int)
    (k : AAMKind) :
    AAM.instanceCall (m.setKind (AAMKind.patchBased p)) env sw aw L
      = AAM.instanceCoreFB (m.setKind (AAMKind.patchBased p)) env
          (fun sh _ => env.build_patch_reference_frame sh p) sw aw L
    ∧ AAM.instanceCall (m.setKind AAMKind.dense) env sw aw L
      = AAM.instanceCoreFB (m.setKind AAMKind.dense) env
          (fun sh lms => env.build_reference_frame sh (denseTrilist lms))
          sw aw L
    ∧ ∀ fb : Landmarks → Landmarks → RefFrame,
        AAM.instanceCoreFB (m.setKind k) env fb sw aw L
          = AAM.instanceCoreFB m env fb sw aw L := by
  refine ⟨?_, ?_, fun fb => rfl⟩
  · exact instanceCall_eq_coreFB _ env _ sw aw L
      (fun rs lms => buildReferenceFrame_patch _ env p rfl rs lms)
  · exact instanceCall_eq_coreFB _ env _ sw aw L
      (fun rs lms => buildReferenceFrame_dense _ env rfl rs lms)

/-- C10: the dense frame builder passes a triangulation only when the
template's "source" landmark object is of exactly type `TriMesh`; an
object of a proper subclass of `TriMesh` yields `trilist = None`, its
triangulation ignored. -/
theorem trilist_requires_exact_trimesh_type (m : AAM) (env : Env)
    (si lms1 lms2 : Landmarks)
    (hk : m.kind = AAMKind.dense)
    (h1 : lms1.kind = LmKind.triMesh)
    (h2 : lms2.kind = LmKind.triMeshSub) :
    m.buildReferenceFrame env si lms1
        = env.build_reference_frame si (some lms1.trilist)
    ∧ m.buildReferenceFrame env si lms2
        = env.build_reference_frame si none := by
  constructor
  · rw [buildReferenceFrame_dense m env hk]
    unfold denseTrilist
    rw [if_pos h1]
  · rw [buildReferenceFrame_dense m env hk]
    unfold denseTrilist
    rw [if_neg (by rw [h2]; exact fun h => nomatch h)]

/-- Witness for C1 on a concrete two-component model. -/
theorem instance_scales_by_sqrt_eigenvalues_witness :
    AAM.mkInstance cAAM cEnv (some (Weights.ndarray [1, 2]))
        (some (Weights.pylist [3])) 0 =
      AAM.instanceAux cAAM cEnv 0
        (cShapeModel.inst (List.zipWith (· * ·)
          (Weights.ndarray [1, 2]).toList
          ((cShapeModel.eigenvalues.take
            (Weights.ndarray [1, 2]).toList.length).map cEnv.sqrt)))
        (cAppModel.inst (List.zipWith (· * ·)
          (Weights.pylist [3]).toList
          ((cAppModel.eigenvalues.take
            (Weights.pylist [3]).toList.length).map cEnv.sqrt))) :=
  instance_scales_by_sqrt_eigenvalues cAAM cEnv 0 cShapeModel cAppModel
    (Weights.ndarray [1, 2]) (Weights.pylist [3]) rfl rfl
    (by decide) (by decide)

/-- Witness for C2 on a concrete model. -/
theorem instance_none_gives_mean_rendering_witness :
    AAM.mkInstance cAAM cEnv none none 0 =
      AAM.instanceAux cAAM cEnv 0 cShapeModel.mean cAppModel.mean :=
  instance_none_gives_mean_rendering cAAM cEnv 0 cShapeModel cAppModel
    rfl rfl (by decide) (by decide) rfl rfl

/-- Witness for the amended C3 on a concrete model. -/
theorem dense_frame_trilist_from_template_witness :
    AAM.instanceAux cAAM cEnv 0 cLmsPC cAppModel.mean =
      some (cEnv.warp_to_mask (cEnv.as_unmasked cAppModel.mean false)
        (cEnv.build_reference_frame cLmsPC
          (denseTrilist cAppModel.mean.source_lms)).mask
        (cAAM.transform
          (cEnv.build_reference_frame cLmsPC
            (denseTrilist cAppModel.mean.source_lms)).source_lms
          cAppModel.mean.source_lms)
        true) :=
  dense_frame_trilist_from_template cAAM cEnv 0 cLmsPC cAppModel.mean
    cAppModel rfl rfl

/-- Witness for the amended C4 on a concrete model. -/
theorem oversized_ndarray_weights_raise_witness :
    AAM.instanceCall cAAM cEnv (some (Weights.ndarray [1, 1, 1])) none 0
      = none :=
  oversized_ndarray_weights_raise cAAM cEnv 0 cShapeModel [1, 1, 1] none
    rfl (by decide) (by decide)

/-- Witness for the amended C5 on a concrete model. -/
theorem instance_weight_buffer_effects_witness :
    cResult5.shapeBufAfter = some (Weights.ndarray (List.zipWith (· * ·) [1]
        ((cShapeModel.eigenvalues.take ([1] : List ℚ).length).map cEnv.sqrt)))
    ∧ cResult5.appBufAfter = some (Weights.pylist [1]) :=
  instance_weight_buffer_effects cAAM cEnv 0 cShapeModel [1] [1] cResult5
    rfl (by decide)
    (by norm_num [AAM.instanceCall, AAM.instanceAux, AAM.buildReferenceFrame,
      scaleStep, npMulInPlace, npMulNew, pyIndex, cAAM, cEnv, cSqrt,
      cShapeModel, cAppModel, cLmsMesh, cLmsPC, cResult5,
      Option.bind_eq_bind', Option.some_bind', Option.getD_some,
      Option.getD_none])

/-- Witness for C6 on a concrete model. -/
theorem instanceAux_warps_mean_template_witness :
    AAM.instanceAux cAAM cEnv 0 cLmsPC cAppModel.mean =
      some (cEnv.warp_to_mask (cEnv.as_unmasked cAppModel.mean false)
        (cAAM.buildReferenceFrame cEnv cLmsPC cAppModel.mean.source_lms).mask
        (cAAM.transform
          (cAAM.buildReferenceFrame cEnv cLmsPC
            cAppModel.mean.source_lms).source_lms
          cAppModel.mean.source_lms)
        true) :=
  instanceAux_warps_mean_template cAAM cEnv 0 cLmsPC cAppModel.mean
    cAppModel rfl

/-- Witness for C7 on a concrete model. -/
theorem random_instance_scaling_witness :
    AAM.randomInstance cAAM cEnv cRng 0 =
      AAM.instanceAux cAAM cEnv 0
        (cShapeModel.inst (List.zipWith (· * ·)
          (cRng cShapeModel.n_active_components)
          ((cShapeModel.eigenvalues.take
            cShapeModel.n_active_components).map cEnv.sqrt)))
        (cAppModel.inst (List.zipWith (· * ·)
          (cRng cAppModel.n_active_components)
          ((cAppModel.eigenvalues.take
            cAppModel.n_active_components).map cEnv.sqrt))) :=
  random_instance_scaling cAAM cEnv cRng 0 cShapeModel cAppModel rfl rfl
    rfl rfl (by decide) (by decide)

/-- Witness for C8 on a concrete two-level model. -/
theorem level_neg_one_default_and_last_witness :
    AAM.instanceDefault cAAM2 cEnv (some (Weights.pylist [1])) none
        = AAM.instanceCall cAAM2 cEnv (some (Weights.pylist [1])) none (-1)
    ∧ AAM.randomInstanceDefault cAAM2 cEnv cRng
        = AAM.randomInstance cAAM2 cEnv cRng (-1)
    ∧ pyIndex cAAM2.shape_models (-1) = cAAM2.shape_models.getLast?
    ∧ pyIndex cAAM2.appearance_models (-1)
        = cAAM2.appearance_models.getLast?
    ∧ AAM.instanceCall cAAM2 cEnv (some (Weights.pylist [1])) none (-1)
        = AAM.instanceCall cAAM2 cEnv (some (Weights.pylist [1])) none
            ((cAAM2.n_levels : Int) - 1) :=
  level_neg_one_default_and_last cAAM2 cEnv (some (Weights.pylist [1])) none
    cRng rfl

/-- Witness for C10 on concrete landmark objects. -/
theorem trilist_requires_exact_trimesh_type_witness :
    cAAM.buildReferenceFrame cEnv cLmsPC cLmsMesh
        = cEnv.build_reference_frame cLmsPC (some cLmsMesh.trilist)
    ∧ cAAM.buildReferenceFrame cEnv cLmsPC cLmsSub
        = cEnv.build_reference_frame cLmsPC none :=
  trilist_requires_exact_trimesh_type cAAM cEnv cLmsPC cLmsMesh cLmsSub
    rfl rfl rfl

end Claims

end Menpofit
